import Mathlib

/-!
Shallow embedding of the O_DIRECT gRPC storage engine
(src/main.rs and src/file_io.rs) and verification of its
specification claims.

Bytes are modelled as `Nat`, byte sequences as `List Nat`, the backing
file as a `List Nat`, the in-memory `HashMap` index as an association
list with insert-replace semantics, and the outcome of an external I/O
transfer as an explicit `Bool` parameter (`ioFail`).
-/

namespace ODirect

/-- The fixed direct-I/O block size (`let block_size = 512` in
`align_data_for_odirect`, main.rs line 120). -/
def blockSize : Nat := 512

/-- Aligned size of a logical byte length:
`((current_size + block_size - 1) / block_size) * block_size`
(main.rs line 122; the same formula appears as
`((size + 511) / 512) * 512` at main.rs line 100 and file_io.rs line 52). -/
def alignedSize (n : Nat) : Nat := ((n + blockSize - 1) / blockSize) * blockSize

/-- `align_data_for_odirect` (main.rs lines 118-129): zero-pad the payload
on the right up to its aligned size (`data.resize(aligned_size, 0)`). -/
def align_data_for_odirect (data : List Nat) : List Nat :=
  data ++ List.replicate (alignedSize data.length - data.length) 0

/-- `RequestMetadata` (main.rs lines 23-27). -/
structure RequestMetadata where
  offset : Nat
  size : Nat
deriving Repr, DecidableEq

/-- Lookup in the request map (`request_map.get(&request_id)`,
main.rs line 193). -/
def lookupId (m : List (String × RequestMetadata)) (id : String) :
    Option RequestMetadata :=
  match m with
  | [] => none
  | (k, v) :: rest => if k = id then some v else lookupId rest id

/-- Insert-replace in the request map (`HashMap::insert`,
main.rs line 89): an existing entry under the same key is replaced. -/
def insertId (m : List (String × RequestMetadata)) (id : String)
    (v : RequestMetadata) : List (String × RequestMetadata) :=
  match m with
  | [] => [(id, v)]
  | (k, w) :: rest =>
      if k = id then (id, v) :: rest else (k, w) :: insertId rest id v

/-- `FileManager` (main.rs lines 30-35): the backing file's contents,
the write cursor `current_offset`, and the identifier index. -/
structure FileManager where
  fileData : List Nat
  current_offset : Nat
  request_map : List (String × RequestMetadata)
deriving Repr, DecidableEq

/-- `FileManager::new` (main.rs lines 38-55): open the backing file and
initialize `current_offset` to the file's current length
(`metadata.len()`), with an empty index. -/
def FileManager.new (initialFile : List Nat) : FileManager :=
  { fileData := initialFile
    current_offset := initialFile.length
    request_map := [] }

/-- Overwrite `data` into `file` starting at byte `offset`
(`seek(SeekFrom::Start(offset))` then `write_all`, main.rs lines 79-80);
seeking past end-of-file zero-fills the gap. -/
def writeAt (file : List Nat) (offset : Nat) (data : List Nat) : List Nat :=
  file.take offset ++ List.replicate (offset - file.length) 0
    ++ data ++ file.drop (offset + data.length)

/-- `read_exact` of `size` bytes at `offset` (main.rs lines 105-108):
fails when fewer than `size` bytes are available from `offset`. -/
def readExactAt (file : List Nat) (offset size : Nat) : Option (List Nat) :=
  if offset + size ≤ file.length then some ((file.drop offset).take size)
  else none

/-- `perform_write` (main.rs lines 72-96): align the payload, transfer it
at `offset` (the transfer's external outcome is `ioFail`), and on success
insert `{offset, size}` — `size` being the ALIGNED length, main.rs line
74 — under the identifier and advance `current_offset` by `size`
(main.rs lines 86-92). On a failed transfer the error propagates before
any bookkeeping update. Returns the manager state and a success flag. -/
def perform_write (fm : FileManager) (offset : Nat) (data : List Nat)
    (request_id : String) (ioFail : Bool) : FileManager × Bool :=
  let aligned_data := align_data_for_odirect data
  let size := aligned_data.length
  if ioFail then (fm, false)
  else
    ({ fileData := writeAt fm.fileData offset aligned_data
       current_offset := fm.current_offset + size
       request_map := insertId fm.request_map request_id
         { offset := offset, size := size } }, true)

/-- `perform_read` (main.rs lines 98-116): read the full aligned block
(`aligned_size` bytes) at `offset` and return only the first `size`
bytes (`buffer[..size as usize].to_vec()`). -/
def perform_read (file : List Nat) (offset size : Nat) : Option (List Nat) :=
  (readExactAt file offset (((size + 511) / 512) * 512)).map
    (fun buffer => buffer.take size)

/-- `WriteResponse` (fileservice proto, used at main.rs lines 159-174). -/
structure WriteResponse where
  request_id : String
  offset : Nat
  success : Bool
  error_message : String
deriving Repr, DecidableEq

/-- `ReadResponse` (fileservice proto, used at main.rs lines 210-225). -/
structure ReadResponse where
  request_id : String
  data : List Nat
  success : Bool
  error_message : String
deriving Repr, DecidableEq

/-- Protocol-level gRPC error statuses used by the service
(`Status::not_found`, `Status::internal`). -/
inductive GrpcStatus where
  | notFound (msg : String)
  | internal (msg : String)
deriving Repr, DecidableEq

/-- `write_data` (main.rs lines 134-178): snapshot `current_offset` under
the lock (lines 145-152), perform the write at that snapshot, and reply
in-payload: on success `{offset, success := true, error_message := ""}`,
on failure `{offset := 0, success := false}` with a nonempty message
(lines 157-177). -/
def write_data (fm : FileManager) (request_id : String) (data : List Nat)
    (ioFail : Bool) : FileManager × WriteResponse :=
  let offset := fm.current_offset
  let res := perform_write fm offset data request_id ioFail
  if res.2 then
    (res.1, { request_id := request_id, offset := offset,
              success := true, error_message := "" })
  else
    (res.1, { request_id := request_id, offset := 0,
              success := false, error_message := "write transfer failed" })

/-- `read_data` (main.rs lines 180-229): look up the identifier
(lines 190-205); an unknown identifier is a protocol-level
`Status::not_found`. For a known identifier, `perform_read` the recorded
`{offset, size}`; a failed transfer is reported in-payload with
`success := false` and empty data (lines 218-227). -/
def read_data (fm : FileManager) (request_id : String) :
    FileManager × Except GrpcStatus ReadResponse :=
  match lookupId fm.request_map request_id with
  | none =>
      (fm, Except.error (GrpcStatus.notFound
        ("Request ID " ++ request_id ++ " not found")))
  | some metadata =>
      match perform_read fm.fileData metadata.offset metadata.size with
      | some d =>
          (fm, Except.ok { request_id := request_id, data := d,
                           success := true, error_message := "" })
      | none =>
          (fm, Except.ok { request_id := request_id, data := [],
                           success := false,
                           error_message := "read transfer failed" })

/-!
Interleaving model of the write path's lock discipline, for the
concurrency claims. A writer thread executes three atomic phases against
the shared cursor, exactly as `write_data`/`perform_write` interleave
their two lock acquisitions around the transfer:
pc 0: lock, snapshot `current_offset` into a local, unlock
      (main.rs lines 145-152);
pc 1: the data transfer at the snapshotted offset, touching no shared
      bookkeeping (main.rs lines 76-83);
pc 2: lock, insert the index entry and advance `current_offset` by the
      aligned size, unlock (main.rs lines 86-92).
-/

/-- Local state of one in-flight writer: program counter, snapshotted
offset, and logical payload length. -/
structure WriterThread where
  pc : Nat
  offset : Nat
  len : Nat
deriving Repr, DecidableEq

/-- One atomic step of a writer thread against the shared cursor,
following the code's lock structure described above. -/
def writerStep (cursor : Nat) (t : WriterThread) : Nat × WriterThread :=
  match t.pc with
  | 0 => (cursor, { t with pc := 1, offset := cursor })
  | 1 => (cursor, { t with pc := 2 })
  | 2 => (cursor + alignedSize t.len, { t with pc := 3 })
  | _ => (cursor, t)

/-- Run two writer threads under a schedule: `true` steps thread 1,
`false` steps thread 2. -/
def runSched (cursor : Nat) (t1 t2 : WriterThread) :
    List Bool → Nat × WriterThread × WriterThread
  | [] => (cursor, t1, t2)
  | b :: rest =>
      if b then
        let s := writerStep cursor t1
        runSched s.1 s.2 t2 rest
      else
        let s := writerStep cursor t2
        runSched s.1 t1 s.2 rest

/-- Two half-open byte ranges `[o1, o1 + a1)` and `[o2, o2 + a2)`
intersect. -/
def rangesOverlap (o1 a1 o2 a2 : Nat) : Prop :=
  o1 < o2 + a2 ∧ o2 < o1 + a1

instance (o1 a1 o2 a2 : Nat) : Decidable (rangesOverlap o1 a1 o2 a2) := by
  unfold rangesOverlap; infer_instance

end ODirect

namespace ODirect

set_option maxRecDepth 10000

/-! ### Helper lemmas -/

/-- The alignment formula written with `blockSize` equals the inlined
`((n + 511) / 512) * 512` form of main.rs line 100 / file_io.rs line 52. -/
lemma alignedSize_eq (n : Nat) : alignedSize n = ((n + 511) / 512) * 512 := by
  unfold alignedSize blockSize
  omega

/-- A logical length never exceeds its aligned size. -/
lemma le_alignedSize (n : Nat) : n ≤ alignedSize n := by
  unfold alignedSize blockSize
  omega

/-- Padding a payload yields exactly its aligned size. -/
lemma align_length (data : List Nat) :
    (align_data_for_odirect data).length = alignedSize data.length := by
  have h := le_alignedSize data.length
  simp [align_data_for_odirect]
  omega

/-- The service read path returns the manager state it was given. -/
lemma read_data_fst (fm : FileManager) (id : String) :
    (read_data fm id).1 = fm := by
  unfold read_data
  split
  · rfl
  · split <;> rfl

/-- A successful write advances the cursor by the aligned payload size and
reports the snapshotted cursor as the assigned offset. -/
lemma write_data_ok (fm : FileManager) (id : String) (d : List Nat) :
    (write_data fm id d false).1.current_offset
        = fm.current_offset + alignedSize d.length
      ∧ (write_data fm id d false).2.offset = fm.current_offset := by
  constructor <;> simp [write_data, perform_write, align_length]

end ODirect

namespace ODirect

/-! ### Claim theorems -/

set_option maxRecDepth 10000

/-- Claim C1 (code bug): the write/read round trip does NOT return exactly
the original payload. Writing the single byte `[1]` under `"a"` succeeds,
but the subsequent read returns 512 bytes — the payload padded with 511
zero bytes — because `perform_write` records the ALIGNED length as the
entry's size (main.rs line 74), so `perform_read`'s truncation
`buffer[..size]` keeps the padding. -/
theorem roundtrip_pads_payload :
    (write_data (FileManager.new []) "a" [1] false).2.success = true
  ∧ (read_data (write_data (FileManager.new []) "a" [1] false).1 "a").2
      = Except.ok { request_id := "a", data := 1 :: List.replicate 511 0,
                    success := true, error_message := "" }
  ∧ (1 :: List.replicate 511 0 : List Nat) ≠ [1] := by
  refine ⟨rfl, rfl, by decide⟩

/-- Claim C2 (code bug): the write path is snapshot-then-advance, not an
atomic reserve-and-advance. For a 1-byte write starting from cursor 0,
the reservation step (pc 0, the only lock acquisition before the
transfer) leaves the shared cursor at 0, and the cursor is still 0 while
the transfer step (pc 1) runs; it only advances to `alignedSize 1 = 512`
at the post-transfer bookkeeping step (pc 2). An atomic reservation would
require the cursor to read `0 + alignedSize 1` before the transfer is
issued, which fails here. -/
theorem write_reservation_snapshot_then_advance :
    writerStep 0 ⟨0, 0, 1⟩ = (0, ⟨1, 0, 1⟩)
  ∧ writerStep 0 ⟨1, 0, 1⟩ = (0, ⟨2, 0, 1⟩)
  ∧ writerStep 0 ⟨2, 0, 1⟩ = (0 + alignedSize 1, ⟨3, 0, 1⟩)
  ∧ alignedSize 1 = 512
  ∧ (writerStep 0 ⟨0, 0, 1⟩).1 ≠ 0 + alignedSize 1 := by
  refine ⟨rfl, rfl, by decide, by decide, by decide⟩

/-- Claim C3 (code bug): two concurrent 1-byte writers, interleaved so
that both snapshot the cursor before either advances it (the schedule
alternates the threads step by step), both complete (pc 3) holding
offset 0: their assigned ranges `[0, alignedSize 1)` coincide, violating
pairwise non-overlap. -/
theorem concurrent_writes_overlap :
    runSched 0 ⟨0, 0, 1⟩ ⟨0, 0, 1⟩ [true, false, true, false, true, false]
      = (alignedSize 1 + alignedSize 1, ⟨3, 0, 1⟩, ⟨3, 0, 1⟩)
  ∧ rangesOverlap 0 (alignedSize 1) 0 (alignedSize 1) := by
  refine ⟨by decide, by decide⟩

/-- Claim C4, counterexample: the claim asserts that the length `L = 0`
aligns to the block size `B = 512`, but the code's alignment function
gives `aligned(0) = 0`: the empty payload is not padded at all. -/
theorem aligned_zero_not_block :
    alignedSize 0 = 0
  ∧ align_data_for_odirect [] = ([] : List Nat)
  ∧ alignedSize 0 ≠ blockSize := by
  refine ⟨rfl, rfl, by decide⟩

/-- Claim C5 (code bug): after successfully writing the 1-byte payload
`[1]` under `"a"`, the index entry stores `size = 512` — the aligned
length computed at main.rs line 74 — not the logical length
`[1].length = 1` that the specification requires. -/
theorem index_records_aligned_size :
    lookupId (write_data (FileManager.new []) "a" [1] false).1.request_map "a"
      = some { offset := 0, size := 512 }
  ∧ alignedSize ([1] : List Nat).length = 512
  ∧ lookupId (write_data (FileManager.new []) "a" [1] false).1.request_map "a"
      ≠ some { offset := 0, size := ([1] : List Nat).length } := by
  refine ⟨by decide, by decide, by decide⟩

/-- Claim C6 (code bug): when the transfer of a 1-byte write under `"a"`
fails, the caller is told so (success = false, nonempty message) and no
index entry is created, but the cursor is NOT left advanced past a
reserved range: it stays at 0 (the code never advanced it before the
transfer), so the next write is assigned the SAME offset 0 rather than
an offset past the allegedly skipped range `[0, alignedSize 1)`. -/
theorem failed_write_reuses_offset :
    (write_data (FileManager.new []) "a" [1] true).2.success = false
  ∧ (write_data (FileManager.new []) "a" [1] true).2.error_message ≠ ""
  ∧ lookupId (write_data (FileManager.new []) "a" [1] true).1.request_map "a"
      = none
  ∧ (write_data (FileManager.new []) "a" [1] true).1.current_offset = 0
  ∧ (write_data (write_data (FileManager.new []) "a" [1] true).1
        "b" [2] false).2.offset = 0
  ∧ (write_data (write_data (FileManager.new []) "a" [1] true).1
        "b" [2] false).2.offset ≠ alignedSize 1 := by
  refine ⟨rfl, by decide, rfl, rfl, rfl, by decide⟩

/-- Claim C10 (code bug): writing `[7]` under the already-used identifier
`"a"` (previously holding `[5]`) succeeds and silently replaces the index
entry with the newer offset 512, and the subsequent read is served from
that newer entry — but it returns the newer payload PADDED to 512 bytes,
not exactly `[7]`, because the replaced entry's stored size is the
aligned length (same slip as the round-trip bug). -/
theorem rewrite_replaces_entry :
    (write_data (write_data (FileManager.new []) "a" [5] false).1
        "a" [7] false).2.success = true
  ∧ lookupId (write_data (write_data (FileManager.new []) "a" [5] false).1
        "a" [7] false).1.request_map "a"
      = some { offset := 512, size := 512 }
  ∧ (read_data (write_data (write_data (FileManager.new []) "a" [5] false).1
        "a" [7] false).1 "a").2
      = Except.ok { request_id := "a", data := 7 :: List.replicate 511 0,
                    success := true, error_message := "" }
  ∧ (7 :: List.replicate 511 0 : List Nat) ≠ [7] := by
  refine ⟨rfl, by decide, rfl, by decide⟩

end ODirect

namespace ODirect

set_option maxRecDepth 10000

/-- Claim C4 (amended): for every logical length `L`,
`aligned(L) = ((L + 511) / 512) * 512`, which is the least multiple of
the 512-byte block size that is at least `L` (the ceiling-division
contract); write payloads are zero-padded on the right up to
`aligned(L)` before transfer (the padded buffer has length `aligned(L)`,
begins with the payload, and ends in zeros); reads fetch `aligned(L)`
bytes — succeeding exactly when that many bytes are available — and
truncate to the first `L`; and `L = 0` is legal and aligns to `0`, not
to the block size. -/
theorem alignment_contract (L offset : Nat) (data file buf : List Nat) :
    alignedSize L = ((L + 511) / 512) * 512
  ∧ blockSize ∣ alignedSize L
  ∧ L ≤ alignedSize L
  ∧ (∀ m, blockSize ∣ m → L ≤ m → alignedSize L ≤ m)
  ∧ (align_data_for_odirect data).length = alignedSize data.length
  ∧ (align_data_for_odirect data).take data.length = data
  ∧ (align_data_for_odirect data).drop data.length
      = List.replicate (alignedSize data.length - data.length) 0
  ∧ ((∃ d, perform_read file offset L = some d)
      ↔ offset + alignedSize L ≤ file.length)
  ∧ (perform_read file offset L = some buf →
      buf = (file.drop offset).take L)
  ∧ alignedSize 0 = 0 := by
  have heq : alignedSize L = ((L + 511) / 512) * 512 := alignedSize_eq L
  have hle : L ≤ alignedSize L := le_alignedSize L
  refine ⟨heq, ?_, hle, ?_, align_length data, List.take_left data _,
          List.drop_left data _, ?_, ?_, rfl⟩
  · show blockSize ∣ ((L + blockSize - 1) / blockSize) * blockSize
    exact dvd_mul_left _ _
  · intro m hdvd hLm
    obtain ⟨k, rfl⟩ := hdvd
    simp only [alignedSize, blockSize] at hLm ⊢
    omega
  · unfold perform_read readExactAt
    rw [← heq]
    constructor
    · intro ⟨d, hd⟩
      by_contra hno
      rw [if_neg hno] at hd
      simp at hd
    · intro hyes
      exact ⟨((file.drop offset).take (alignedSize L)).take L,
             by rw [if_pos hyes]; rfl⟩
  · intro hbuf
    unfold perform_read readExactAt at hbuf
    rw [← heq] at hbuf
    by_cases hfit : offset + alignedSize L ≤ file.length
    · rw [if_pos hfit] at hbuf
      simp only [Option.map_some'] at hbuf
      injection hbuf with hbuf
      rw [← hbuf, List.take_take, min_eq_left hle]
    · rw [if_neg hfit] at hbuf
      simp at hbuf

/-- Claim C4, witness: the alignment contract instantiated at `L = 13`
with a 512-byte backing file: the read of logical length 13 at offset 0
is in range since `aligned(13) = 512`. -/
theorem alignment_contract_witness :
    (∃ d, perform_read (List.replicate 512 0) 0 13 = some d)
  ∧ alignedSize 0 = 0 := by
  have h := alignment_contract 13 0 [1] (List.replicate 512 0) []
  exact ⟨h.2.2.2.2.2.2.2.1.mpr (by decide), h.2.2.2.2.2.2.2.2.2⟩

/-- Claim C7: reading an identifier absent from the index fails at the
protocol level with the not-found status carrying the code's message, and
is never an in-payload response at all — in particular never a success
with empty data. -/
theorem read_unknown_not_found (fm : FileManager) (id : String)
    (h : lookupId fm.request_map id = none) :
    (read_data fm id).2
      = Except.error (GrpcStatus.notFound
          ("Request ID " ++ id ++ " not found"))
    ∧ ∀ resp : ReadResponse, (read_data fm id).2 ≠ Except.ok resp := by
  unfold read_data
  rw [h]
  exact ⟨rfl, fun resp hq => Except.noConfusion hq⟩

/-- Claim C7, witness: on a freshly created manager the identifier
`"nonexistent"` was never written, and reading it yields the protocol
not-found error. -/
theorem read_unknown_not_found_witness :
    (read_data (FileManager.new []) "nonexistent").2
      = Except.error (GrpcStatus.notFound
          ("Request ID " ++ "nonexistent" ++ " not found")) :=
  (read_unknown_not_found (FileManager.new []) "nonexistent" rfl).1

/-- Claim C9: every read leaves the bookkeeping state unchanged — the
whole manager state is returned as given, so the cursor, every index
entry (present or absent), and the file contents are untouched, whether
the identifier resolves and whether the transfer succeeds. -/
theorem read_preserves_volume_state (fm : FileManager) (id : String) :
    (read_data fm id).1 = fm
  ∧ (read_data fm id).1.current_offset = fm.current_offset
  ∧ (∀ id2, lookupId (read_data fm id).1.request_map id2
      = lookupId fm.request_map id2)
  ∧ (read_data fm id).1.fileData = fm.fileData := by
  have h1 := read_data_fst fm id
  exact ⟨h1, by rw [h1], fun id2 => by rw [h1], by rw [h1]⟩

/-- Claim C8: the cursor starts at the backing file's length
(`FileManager.new`), a successful write advances it by exactly the
aligned payload size, a failed write and any read leave it unchanged, so
it is monotonically non-decreasing; consequently the offsets assigned to
consecutive successful sequential writes increase by exactly the previous
write's aligned footprint. -/
theorem write_cursor_invariants (f : List Nat) (fm : FileManager)
    (id id2 : String) (d d2 : List Nat) (io : Bool) :
    (FileManager.new f).current_offset = f.length
  ∧ (write_data fm id d false).1.current_offset
      = fm.current_offset + alignedSize d.length
  ∧ (write_data fm id d true).1.current_offset = fm.current_offset
  ∧ fm.current_offset ≤ (write_data fm id d io).1.current_offset
  ∧ (read_data fm id).1.current_offset = fm.current_offset
  ∧ (write_data fm id d false).2.offset = fm.current_offset
  ∧ (write_data (write_data fm id d false).1 id2 d2 false).2.offset
      = (write_data fm id d false).2.offset + alignedSize d.length := by
  refine ⟨rfl, (write_data_ok fm id d).1, rfl, ?_, ?_, (write_data_ok fm id d).2, ?_⟩
  · cases io
    · rw [(write_data_ok fm id d).1]
      exact Nat.le_add_right _ _
    · exact Nat.le_refl _
  · rw [read_data_fst fm id]
  · rw [(write_data_ok (write_data fm id d false).1 id2 d2).2,
        (write_data_ok fm id d).1, (write_data_ok fm id d).2]

end ODirect
